import Mathlib

/-
Verification of the connection-lifecycle and protocol-dispatch engine of
ArbiterAI.  The engine exists in two hand-written copies:

  * the browser copy: the AgentProvider React component
    (embedded in LAUNCH_CHECKLIST.md, lines 242-421) together with the
    Home component that gates prompt submission;
  * the desktop copy: electron-app/app.js.

Both copies are embedded below as pure transition functions over explicit
state.  The locally assigned message id (Math.random) and receipt
timestamp (new Date) are nondeterministic values that no property here
depends on; they are not modelled.  Timers are modelled as events: a
scheduled timer is recorded in the state, and the moment its callback
runs is an explicit event.
-/

/-- The trim() call both copies apply to the input value: remove
whitespace from both ends of the string.  Embedded structurally over the
character list so that concrete runs evaluate inside the kernel. -/
def jsTrim (s : String) : String :=
  ⟨((s.data.dropWhile Char.isWhitespace).reverse.dropWhile
      Char.isWhitespace).reverse⟩

/-- The execution status values of the protocol, from the TypeScript
declaration AgentStatus in AgentProvider. -/
inductive AgentStatus
  | idle
  | planning
  | executing
deriving DecidableEq, Repr

/-- An inbound frame after JSON decoding, discriminated by its type field.
The field lists follow the union of fields each copy reads: both read
content, step, success, stepNumber and totalSteps of a result frame, and
the desktop copy additionally reads output and error.  Frames whose type
string is none of the known ones are `unknownTag`. -/
inductive InFrame
  | statusF (content : AgentStatus)
  | agent (content : String)
  | result (content : String) (step : Option String) (success : Option Bool)
      (stepNumber : Option Nat) (totalSteps : Option Nat)
      (output : Option String) (errorField : Option String)
  | reflection (content : String)
  | complete (content : String)
  | pong
  | unknownTag (tag : String)
deriving DecidableEq, Repr

/-- A raw inbound frame before decoding: `none` models a frame on which
JSON.parse throws (both copies wrap the parse in try/catch). -/
abbrev RawFrame := Option InFrame

/-- An outbound frame passed to ws.send.  The browser copy sends
prompt frames, the desktop copy sends task frames, and the desktop
heartbeat sends ping frames. -/
inductive OutFrame
  | prompt (content : String)
  | task (content : String)
  | ping
deriving DecidableEq, Repr

namespace AgentProvider

/-- The discriminant of a message in the browser log, from the Message
interface in AgentProvider. -/
inductive MsgType
  | user
  | agent
  | result
deriving DecidableEq, Repr

/-- One entry of the browser log (the messages array).  The id and
timestamp fields of the source interface are locally assigned
nondeterministic values and are omitted. -/
structure Message where
  type : MsgType
  content : String
  step : Option String := none
  success : Option Bool := none
  stepNumber : Option Nat := none
  totalSteps : Option Nat := none
deriving DecidableEq, Repr

/-- maxReconnectAttempts = 5 in AgentProvider. -/
def maxReconnectAttempts : Nat := 5

/-- The backoff delay computed in ws.onclose:
Math.min(1000 * Math.pow(2, reconnectAttempts), 10000). -/
def reconnectDelay (attempts : Nat) : Nat := min (1000 * 2 ^ attempts) 10000

/-- The notice appended by sendPrompt when the socket is not OPEN. -/
def notConnectedText : String :=
  "❌ Not connected to server. Please wait for reconnection..."

/-- The notice appended by ws.onclose when the reconnect attempts are
exhausted. -/
def connectionLostText : String :=
  "❌ Connection lost. Please refresh the page to reconnect."

/-- The observable state of the AgentProvider component: the React state
cells (status, messages, isConnected), the refs (reconnectAttempts and
the pending reconnect timer), plus two observation histories recording
the delays passed to setTimeout and the frames passed to ws.send. -/
structure State where
  status : AgentStatus
  messages : List Message
  isConnected : Bool
  reconnectAttempts : Nat
  pendingReconnect : Option Nat
  scheduledDelays : List Nat
  sent : List OutFrame
deriving DecidableEq, Repr

/-- The initial state: status idle, empty log, not connected, zero
attempts, no timer pending. -/
def init : State :=
  { status := .idle, messages := [], isConnected := false,
    reconnectAttempts := 0, pendingReconnect := none,
    scheduledDelays := [], sent := [] }

/-- addMessage: append one entry to the tail of the messages array. -/
def addMessage (s : State) (m : Message) : State :=
  { s with messages := s.messages ++ [m] }

/-- The body of ws.onmessage: JSON.parse inside try/catch (a parse
failure only logs to the console and leaves all state unchanged), then a
switch on data.type with cases status, agent and result; every other
type value, including reflection, complete and pong, falls through to
the default branch which only logs. -/
def onMessage (s : State) (raw : RawFrame) : State :=
  match raw with
  | none => s
  | some f =>
    match f with
    | .statusF v => { s with status := v }
    | .agent c => addMessage s { type := .agent, content := c }
    | .result c st su n t _ _ =>
        addMessage s { type := .result, content := c, step := st,
                       success := su, stepNumber := n, totalSteps := t }
    | _ => s

/-- sendPrompt: when the socket is not OPEN, append the not-connected
notice as an agent message and return; otherwise append the user message
and then send a prompt frame. -/
def sendPrompt (s : State) (prompt : String) : State :=
  if s.isConnected then
    let s1 := addMessage s { type := .user, content := prompt }
    { s1 with sent := s1.sent ++ [OutFrame.prompt prompt] }
  else
    addMessage s { type := .agent, content := notConnectedText }

/-- handleSubmit of the Home component: only when the trimmed input is
nonempty and status is idle does it call sendPrompt with the trimmed
input; otherwise it does nothing. -/
def handleSubmit (s : State) (input : String) : State :=
  if jsTrim input ≠ "" ∧ s.status = AgentStatus.idle then
    sendPrompt s (jsTrim input)
  else s

/-- The events the AgentProvider component reacts to: the socket open
and close events, the pending reconnect timer firing, an inbound raw
frame, a submission through the Home form, clearMessages, and the
useEffect cleanup that runs on unmount. -/
inductive Event
  | onOpen
  | onClose
  | timerFire
  | frame (raw : RawFrame)
  | submit (input : String)
  | clearMessages
  | teardown
deriving DecidableEq, Repr

/-- One step of the component.
onOpen: set isConnected and reset the attempts counter to 0.
onClose: clear isConnected; if attempts are below the maximum, schedule
a reconnect after the backoff delay, else append the connection-lost
notice.  (The attempts counter is incremented inside the timer callback,
not at scheduling time.)
timerFire: the scheduled callback increments the attempts counter and
calls connect(), creating a fresh socket; the timer is consumed.
frame: ws.onmessage.  submit: Home handleSubmit.  clearMessages: empty
the log.  teardown: the useEffect cleanup clears the pending timer and
calls close() on the current socket; the resulting socket close event is
a later onClose event. -/
def step (s : State) : Event → State
  | .onOpen => { s with isConnected := true, reconnectAttempts := 0 }
  | .onClose =>
      if s.reconnectAttempts < maxReconnectAttempts then
        let d := reconnectDelay s.reconnectAttempts
        { s with isConnected := false, pendingReconnect := some d,
                 scheduledDelays := s.scheduledDelays ++ [d] }
      else
        addMessage { s with isConnected := false }
          { type := .agent, content := connectionLostText }
  | .timerFire =>
      match s.pendingReconnect with
      | some _ => { s with pendingReconnect := none,
                           reconnectAttempts := s.reconnectAttempts + 1 }
      | none => s
  | .frame raw => onMessage s raw
  | .submit input => handleSubmit s input
  | .clearMessages => { s with messages := [] }
  | .teardown => { s with pendingReconnect := none }

/-- Process a sequence of events. -/
def run (s : State) (es : List Event) : State := es.foldl step s

/-- The only event sequence in which the connection suffers five
consecutive unexpected closes with no successful reopen: each close is
followed by the scheduled timer firing (which reconnects), the new
socket closes again, and after the fifth failed cycle the sixth close
finds the attempts exhausted. -/
def fiveFailureTrace : List Event :=
  [.onClose, .timerFire, .onClose, .timerFire, .onClose, .timerFire,
   .onClose, .timerFire, .onClose, .timerFire, .onClose]

end AgentProvider

namespace ElectronApp

/-- One entry of the desktop log (the messages container): each addXxx
helper of app.js appends exactly one rendered entry.  addStatusMessage
appends a visible Status entry, addResultMessage renders step, success,
stepNumber, totalSteps, output and error of the frame. -/
inductive DomMessage
  | user (content : String)
  | agent (content : String)
  | statusLine (content : AgentStatus)
  | resultMsg (step : Option String) (success : Option Bool)
      (stepNumber : Option Nat) (totalSteps : Option Nat)
      (output : Option String) (errorField : Option String)
  | reflection (content : String)
  | complete (content : String)
deriving DecidableEq, Repr

/-- handleMessage of app.js: a switch on data.type with cases status,
agent, result, reflection and complete, each appending one entry; pong
and the default branch only log to the console. -/
def handleMessage (log : List DomMessage) (data : InFrame) : List DomMessage :=
  match data with
  | .statusF c => log ++ [.statusLine c]
  | .agent c => log ++ [.agent c]
  | .result _ st su n t o e => log ++ [.resultMsg st su n t o e]
  | .reflection c => log ++ [.reflection c]
  | .complete c => log ++ [.complete c]
  | .pong => log
  | .unknownTag _ => log

/-- ws.onmessage of app.js: JSON.parse inside try/catch; on a parse
failure only a console error is emitted and the log is unchanged. -/
def onMessage (log : List DomMessage) (raw : RawFrame) : List DomMessage :=
  match raw with
  | none => log
  | some d => handleMessage log d

/-- sendMessage of app.js: trim the input; if it is empty or the socket
is not OPEN, return silently (no notice, no frame); otherwise append the
user entry and send a task frame. -/
def sendMessage (log : List DomMessage) (socketOpen : Bool)
    (inputValue : String) : List DomMessage × List OutFrame :=
  let message := jsTrim inputValue
  if message = "" ∨ socketOpen = false then (log, [])
  else (log ++ [DomMessage.user message], [OutFrame.task message])

/-- The period of the heartbeat setInterval in app.js. -/
def pingIntervalMs : Nat := 30000

/-- One firing of the heartbeat interval: send a ping frame when the
socket is OPEN, otherwise send nothing.  The callback reads only the
socket handle and its readyState; it consults no other state. -/
def pingTick (socketOpen : Bool) : List OutFrame :=
  if socketOpen then [OutFrame.ping] else []

/-- The period of the reconnect setInterval started by ws.onclose. -/
def reconnectRetryDelayMs : Nat := 3000

/-- The reconnect bookkeeping of app.js: whether the repeating reconnect
interval is armed, plus an observation history of the delays scheduled
(one entry when onclose arms setInterval with its first firing due
3000 ms later, and one entry each time a firing rearms the interval).
There is no attempts counter and no terminal branch in the source, so
the state carries neither. -/
structure ConnState where
  intervalActive : Bool
  scheduledDelays : List Nat
deriving DecidableEq, Repr

/-- The initial reconnect state: no interval armed. -/
def connInit : ConnState := { intervalActive := false, scheduledDelays := [] }

/-- The connection events of app.js. -/
inductive ConnEvent
  | onOpen
  | onClose
  | intervalTick
deriving DecidableEq, Repr

/-- ws.onopen clears the reconnect interval; ws.onclose starts
setInterval(connect, 3000); each tick of an armed interval calls
connect() and leaves the interval armed for another 3000 ms. -/
def connStep (s : ConnState) : ConnEvent → ConnState
  | .onOpen => { s with intervalActive := false }
  | .onClose => { intervalActive := true,
                  scheduledDelays := s.scheduledDelays ++ [reconnectRetryDelayMs] }
  | .intervalTick =>
      if s.intervalActive then
        { s with scheduledDelays := s.scheduledDelays ++ [reconnectRetryDelayMs] }
      else s

/-- Process a sequence of connection events. -/
def connRun (s : ConnState) (es : List ConnEvent) : ConnState :=
  es.foldl connStep s

end ElectronApp

/-
Helper definitions and lemmas shared by the theorems below.
-/

/-- Number of entries one raw frame adds to the browser log: only agent
and result frames append. -/
def browserLogGrowth (raw : RawFrame) : Nat :=
  match raw with
  | some (InFrame.agent _) => 1
  | some (InFrame.result ..) => 1
  | _ => 0

/-- Number of entries one raw frame adds to the desktop log: status,
agent, result, reflection and complete frames each append one. -/
def electronLogGrowth (raw : RawFrame) : Nat :=
  match raw with
  | some (InFrame.statusF _) => 1
  | some (InFrame.agent _) => 1
  | some (InFrame.result ..) => 1
  | some (InFrame.reflection _) => 1
  | some (InFrame.complete _) => 1
  | _ => 0

theorem browser_onMessage_length (s : AgentProvider.State) (raw : RawFrame) :
    (AgentProvider.onMessage s raw).messages.length
      = s.messages.length + browserLogGrowth raw := by
  cases raw with
  | none => rfl
  | some f =>
      cases f <;>
        simp [AgentProvider.onMessage, AgentProvider.addMessage, browserLogGrowth]

theorem electron_onMessage_length (log : List ElectronApp.DomMessage)
    (raw : RawFrame) :
    (ElectronApp.onMessage log raw).length = log.length + electronLogGrowth raw := by
  cases raw with
  | none => rfl
  | some f =>
      cases f <;>
        simp [ElectronApp.onMessage, ElectronApp.handleMessage, electronLogGrowth]

theorem browser_fold_length (frames : List RawFrame) :
    ∀ s : AgentProvider.State,
      (frames.foldl AgentProvider.onMessage s).messages.length
        = s.messages.length + (frames.map browserLogGrowth).sum := by
  induction frames with
  | nil => intro s; simp
  | cons r rest ih =>
      intro s
      have h1 := ih (AgentProvider.onMessage s r)
      simp only [List.foldl_cons, List.map_cons, List.sum_cons]
      rw [h1, browser_onMessage_length]
      omega

theorem electron_fold_length (frames : List RawFrame) :
    ∀ log : List ElectronApp.DomMessage,
      (frames.foldl ElectronApp.onMessage log).length
        = log.length + (frames.map electronLogGrowth).sum := by
  induction frames with
  | nil => intro log; simp
  | cons r rest ih =>
      intro log
      have h1 := ih (ElectronApp.onMessage log r)
      simp only [List.foldl_cons, List.map_cons, List.sum_cons]
      rw [h1, electron_onMessage_length]
      omega

/-
The claims.
-/

/-- C1 counterexample: the claim fails on the desktop copy, one of its
two cited implementations.  There the first unexpected close arms a
repeating 3000 ms interval, not a 1000 ms backoff, and after five closes
with five failed retries a sixth retry is still scheduled; the state has
no terminal branch at all. -/
theorem electron_reconnect_not_exponential :
    (ElectronApp.connStep ElectronApp.connInit
        ElectronApp.ConnEvent.onClose).scheduledDelays = [3000]
    ∧ ElectronApp.reconnectRetryDelayMs ≠ 1000
    ∧ (ElectronApp.connRun ElectronApp.connInit
        [ElectronApp.ConnEvent.onClose, ElectronApp.ConnEvent.intervalTick,
         ElectronApp.ConnEvent.intervalTick, ElectronApp.ConnEvent.intervalTick,
         ElectronApp.ConnEvent.intervalTick,
         ElectronApp.ConnEvent.intervalTick]).scheduledDelays
        = [3000, 3000, 3000, 3000, 3000, 3000] := by
  exact ⟨rfl, by decide, rfl⟩

/-- C1 (amended to the browser copy): starting from a successful open,
five consecutive unexpected closes with no successful reopen schedule
exactly the delays [1000, 2000, 4000, 8000, 10000] ms; after the sixth
close no timer is pending, no sixth delay was scheduled, and the single
log entry is the terminal connection-lost notice; any successful open
resets the attempts counter to 0. -/
theorem browser_backoff_schedule :
    AgentProvider.run
        (AgentProvider.step AgentProvider.init AgentProvider.Event.onOpen)
        AgentProvider.fiveFailureTrace
      = { status := AgentStatus.idle,
          messages := [{ type := AgentProvider.MsgType.agent,
                         content := AgentProvider.connectionLostText }],
          isConnected := false, reconnectAttempts := 5,
          pendingReconnect := none,
          scheduledDelays := [1000, 2000, 4000, 8000, 10000], sent := [] }
    ∧ ∀ s : AgentProvider.State,
        (AgentProvider.step s AgentProvider.Event.onOpen).reconnectAttempts = 0 := by
  exact ⟨by decide, fun s => rfl⟩

/-- C2 counterexample: the two copies do not match.  On the very same
transport history (one successful open followed by one unexpected
close), the browser copy schedules a 1000 ms retry while the desktop
copy schedules a 3000 ms retry. -/
theorem copies_schedule_different_first_delay :
    (AgentProvider.step
        (AgentProvider.step AgentProvider.init AgentProvider.Event.onOpen)
        AgentProvider.Event.onClose).scheduledDelays = [1000]
    ∧ (ElectronApp.connStep ElectronApp.connInit
        ElectronApp.ConnEvent.onClose).scheduledDelays = [3000]
    ∧ ([1000] : List Nat) ≠ ([3000] : List Nat) := by
  exact ⟨rfl, rfl, by decide⟩

/-- C2 (amended): the two copies agree on tolerating undecodable frames
and on ignoring pong and unknown frame types without appending, but they
diverge elsewhere: the browser copy ignores reflection and complete
frames and keeps status frames out of the log, while the desktop copy
appends one rendered entry for reflection, complete and status frames;
the browser reconnect starts at 1000 ms (bounded exponential) while the
desktop reconnect always uses 3000 ms (unbounded); an accepted
submission sends a prompt frame in the browser copy but a task frame in
the desktop copy; and only the desktop copy has a heartbeat tick. -/
theorem copies_agree_and_diverge :
    (∀ s, AgentProvider.onMessage s none = s)
    ∧ (∀ log, ElectronApp.onMessage log none = log)
    ∧ (∀ s, AgentProvider.onMessage s (some InFrame.pong) = s)
    ∧ (∀ log, ElectronApp.onMessage log (some InFrame.pong) = log)
    ∧ (∀ s t, AgentProvider.onMessage s (some (InFrame.unknownTag t)) = s)
    ∧ (∀ log t, ElectronApp.onMessage log (some (InFrame.unknownTag t)) = log)
    ∧ (∀ s c, (AgentProvider.onMessage s (some (InFrame.reflection c))).messages
          = s.messages)
    ∧ (∀ log c, ElectronApp.onMessage log (some (InFrame.reflection c))
          = log ++ [ElectronApp.DomMessage.reflection c])
    ∧ (∀ s c, (AgentProvider.onMessage s (some (InFrame.complete c))).messages
          = s.messages)
    ∧ (∀ log c, ElectronApp.onMessage log (some (InFrame.complete c))
          = log ++ [ElectronApp.DomMessage.complete c])
    ∧ (∀ s v, (AgentProvider.onMessage s (some (InFrame.statusF v))).messages
          = s.messages)
    ∧ (∀ log v, ElectronApp.onMessage log (some (InFrame.statusF v))
          = log ++ [ElectronApp.DomMessage.statusLine v])
    ∧ AgentProvider.reconnectDelay 0 = 1000
    ∧ ElectronApp.reconnectRetryDelayMs = 3000
    ∧ (AgentProvider.sendPrompt
        (AgentProvider.step AgentProvider.init AgentProvider.Event.onOpen)
        "hi").sent = [OutFrame.prompt "hi"]
    ∧ (ElectronApp.sendMessage [] true "hi").2 = [OutFrame.task "hi"]
    ∧ ElectronApp.pingTick true = [OutFrame.ping] := by
  refine ⟨fun s => rfl, fun log => rfl, fun s => rfl, fun log => rfl,
    fun s t => rfl, fun log t => rfl, fun s c => rfl, fun log c => rfl,
    fun s c => rfl, fun log c => rfl, fun s v => rfl, fun log v => rfl,
    rfl, rfl, by decide, by decide, rfl⟩

/-- C3 counterexample: in the browser copy a reflection frame appends no
event (the claim demands exactly one), and in the desktop copy a status
frame does add a log entry (the claim says status frames never do). -/
theorem reflection_ignored_and_status_rendered :
    (AgentProvider.onMessage AgentProvider.init
        (some (InFrame.reflection "done"))).messages.length = 0
    ∧ ElectronApp.onMessage [] (some (InFrame.statusF AgentStatus.planning))
        = [ElectronApp.DomMessage.statusLine AgentStatus.planning] := by
  exact ⟨rfl, rfl⟩

/-- C3 (amended): for every sequence of inbound frames, the browser log
grows by exactly the number of frames whose type is agent or result
(status, pong, reflection, complete, unknown and undecodable frames
never append there), while the desktop log grows by exactly the number
of frames whose type is status, agent, result, reflection or complete;
submissions accepted by the command gate add their own user entries on
top of these counts. -/
theorem log_growth_counts :
    (∀ (frames : List RawFrame) (s : AgentProvider.State),
        (frames.foldl AgentProvider.onMessage s).messages.length
          = s.messages.length + (frames.map browserLogGrowth).sum)
    ∧ (∀ (frames : List RawFrame) (log : List ElectronApp.DomMessage),
        (frames.foldl ElectronApp.onMessage log).length
          = log.length + (frames.map electronLogGrowth).sum) := by
  exact ⟨fun frames s => browser_fold_length frames s,
    fun frames log => electron_fold_length frames log⟩

/-- C4: an undecodable inbound frame is dropped with only a console
diagnostic: the whole state (log, status, connection bookkeeping) is
unchanged in both copies, and processing continues, so a malformed frame
immediately followed by a valid agent frame yields a log of length one
holding only the event of the valid frame. -/
theorem malformed_frame_dropped :
    (∀ s, AgentProvider.onMessage s none = s)
    ∧ (∀ log, ElectronApp.onMessage log none = log)
    ∧ (AgentProvider.run AgentProvider.init
        [AgentProvider.Event.frame none,
         AgentProvider.Event.frame (some (InFrame.agent "hello"))]).messages
      = [{ type := AgentProvider.MsgType.agent, content := "hello" }]
    ∧ ElectronApp.onMessage (ElectronApp.onMessage [] none)
        (some (InFrame.agent "hello"))
      = [ElectronApp.DomMessage.agent "hello"] := by
  exact ⟨fun s => rfl, fun log => rfl, rfl, rfl⟩

/-- C5 counterexample: the claim asserts that a rejected submission
leaves the log unchanged, but a submission attempted while disconnected
(status idle, nonempty input) appends the not-connected notice, so the
log does change. -/
theorem disconnected_submit_mutates_log :
    AgentProvider.init.isConnected = false
    ∧ (AgentProvider.step AgentProvider.init
        (AgentProvider.Event.submit "hello")).messages
      ≠ AgentProvider.init.messages := by
  exact ⟨rfl, by decide⟩

/-- C5 (amended): a submission attempted while disconnected or while
status is not idle produces zero outbound frames and leaves status
unchanged; when the busy gate of the Home form blocks it (status not
idle, or empty trimmed input) the log is also unchanged and no notice
appears, while a disconnected submission that passes that gate appends
the user-visible not-connected notice to the log. -/
theorem rejected_submit_sends_nothing
    (s : AgentProvider.State) (input : String)
    (h : s.isConnected = false ∨ s.status ≠ AgentStatus.idle) :
    (AgentProvider.step s (AgentProvider.Event.submit input)).sent = s.sent
    ∧ (AgentProvider.step s (AgentProvider.Event.submit input)).status = s.status
    ∧ (AgentProvider.step s (AgentProvider.Event.submit input)).messages
        = (if jsTrim input ≠ "" ∧ s.status = AgentStatus.idle
           then s.messages ++ [{ type := AgentProvider.MsgType.agent,
                                 content := AgentProvider.notConnectedText }]
           else s.messages) := by
  by_cases hc : jsTrim input ≠ "" ∧ s.status = AgentStatus.idle
  · have hnc : s.isConnected = false := by
      rcases h with h | h
      · exact h
      · exact absurd hc.2 h
    simp [AgentProvider.step, AgentProvider.handleSubmit, hc,
      AgentProvider.sendPrompt, hnc, AgentProvider.addMessage]
  · simp [AgentProvider.step, AgentProvider.handleSubmit, hc]

/-- C5 witness: the amended statement at the initial state (idle but
disconnected) with the input "hello". -/
theorem rejected_submit_sends_nothing_witness :
    (AgentProvider.step AgentProvider.init
        (AgentProvider.Event.submit "hello")).sent = AgentProvider.init.sent
    ∧ (AgentProvider.step AgentProvider.init
        (AgentProvider.Event.submit "hello")).status = AgentProvider.init.status
    ∧ (AgentProvider.step AgentProvider.init
        (AgentProvider.Event.submit "hello")).messages
        = (if jsTrim "hello" ≠ "" ∧ AgentProvider.init.status = AgentStatus.idle
           then AgentProvider.init.messages
               ++ [{ type := AgentProvider.MsgType.agent,
                     content := AgentProvider.notConnectedText }]
           else AgentProvider.init.messages) :=
  rejected_submit_sends_nothing AgentProvider.init "hello" (Or.inl rfl)

/-- C6 counterexample: the desktop copy transmits a task frame, not a
prompt frame, for an accepted submission. -/
theorem electron_sends_task_not_prompt :
    (ElectronApp.sendMessage [] true "hi").2 = [OutFrame.task "hi"]
    ∧ OutFrame.task "hi" ≠ OutFrame.prompt "hi" := by
  exact ⟨by decide, by decide⟩

/-- C6 (amended): an accepted submission first appends the locally
originated user entry carrying the trimmed text and then transmits
exactly one frame carrying that text; the frame is tagged prompt in the
browser copy and task in the desktop copy, and neither copy changes
status as part of submission (the browser record equality touches only
the messages and sent fields). -/
theorem accepted_submit_echo_then_send
    (s : AgentProvider.State) (input : String)
    (log : List ElectronApp.DomMessage) (v : String)
    (hconn : s.isConnected = true) (hidle : s.status = AgentStatus.idle)
    (hne : jsTrim input ≠ "") (hv : jsTrim v ≠ "") :
    AgentProvider.step s (AgentProvider.Event.submit input)
      = { s with
          messages := s.messages
              ++ [{ type := AgentProvider.MsgType.user, content := jsTrim input }],
          sent := s.sent ++ [OutFrame.prompt (jsTrim input)] }
    ∧ ElectronApp.sendMessage log true v
      = (log ++ [ElectronApp.DomMessage.user (jsTrim v)],
         [OutFrame.task (jsTrim v)]) := by
  constructor
  · simp [AgentProvider.step, AgentProvider.handleSubmit, hne, hidle,
      AgentProvider.sendPrompt, hconn, AgentProvider.addMessage]
  · simp [ElectronApp.sendMessage, hv]

/-- C6 witness: the amended statement at a freshly opened connection
with the input "hi" on both copies. -/
theorem accepted_submit_echo_then_send_witness :
    AgentProvider.step
        (AgentProvider.step AgentProvider.init AgentProvider.Event.onOpen)
        (AgentProvider.Event.submit "hi")
      = { AgentProvider.step AgentProvider.init AgentProvider.Event.onOpen with
          messages := (AgentProvider.step AgentProvider.init
              AgentProvider.Event.onOpen).messages
              ++ [{ type := AgentProvider.MsgType.user, content := jsTrim "hi" }],
          sent := (AgentProvider.step AgentProvider.init
              AgentProvider.Event.onOpen).sent
              ++ [OutFrame.prompt (jsTrim "hi")] }
    ∧ ElectronApp.sendMessage [] true "hi"
      = ([ElectronApp.DomMessage.user (jsTrim "hi")],
         [OutFrame.task (jsTrim "hi")]) :=
  accepted_submit_echo_then_send
    (AgentProvider.step AgentProvider.init AgentProvider.Event.onOpen)
    "hi" [] "hi" rfl rfl (by decide) (by decide)

/-- The status update the claim describes: only a successfully decoded
status frame changes the status cell, to the value it carries; every
other event leaves it alone.  Stated from the claim words, to be
compared with the embedded step function. -/
def statusFromFrameOnly (cur : AgentStatus) (e : AgentProvider.Event) : AgentStatus :=
  match e with
  | .frame (some (InFrame.statusF v)) => v
  | _ => cur

/-- C7: across every operation of the browser machine (inbound frames,
submissions, clearMessages, opens, closes, timer firings and teardown),
the status cell after a step equals the claimed update: the carried
value when the step processes a decoded status frame, and the previous
value otherwise.  So status changes exactly when a status frame is
processed. -/
theorem status_only_from_status_frames :
    ∀ (s : AgentProvider.State) (e : AgentProvider.Event),
      (AgentProvider.step s e).status = statusFromFrameOnly s.status e := by
  intro s e
  cases e with
  | onOpen => rfl
  | onClose =>
      simp only [AgentProvider.step, statusFromFrameOnly]
      split
      · rfl
      · rfl
  | timerFire =>
      simp only [AgentProvider.step, statusFromFrameOnly]
      cases hp : s.pendingReconnect <;> simp [hp]
  | frame raw =>
      cases raw with
      | none => rfl
      | some f => cases f <;> rfl
  | submit input =>
      simp only [AgentProvider.step, AgentProvider.handleSubmit, statusFromFrameOnly]
      split
      · simp only [AgentProvider.sendPrompt]
        split
        · rfl
        · rfl
      · rfl
  | clearMessages => rfl
  | teardown => rfl

/-- C8: the desktop heartbeat interval is the fixed 30000 ms constant;
each firing of the interval transmits exactly one ping frame when the
socket is OPEN and nothing otherwise (the callback consults only the
socket handle, so the transmission is independent of anything else); and
an inbound pong frame mutates no state in either copy. -/
theorem heartbeat_and_pong :
    ElectronApp.pingIntervalMs = 30000
    ∧ ElectronApp.pingTick true = [OutFrame.ping]
    ∧ ElectronApp.pingTick false = []
    ∧ (∀ log, ElectronApp.onMessage log (some InFrame.pong) = log)
    ∧ (∀ s, AgentProvider.onMessage s (some InFrame.pong) = s) := by
  exact ⟨rfl, rfl, rfl, fun log => rfl, fun s => rfl⟩

/-- C9: the code contradicts the claim.  The useEffect cleanup cancels
the pending timer and calls close() on the socket, but the socket close
event that this close() provokes runs the same onclose handler as an
unexpected close: starting from a connected state with zero attempts,
teardown followed by the resulting close event leaves a fresh 1000 ms
reconnect timer pending, and when that timer fires the attempts counter
increments and connect() opens a replacement socket. -/
theorem teardown_reschedules_reconnect :
    (AgentProvider.run
        (AgentProvider.step AgentProvider.init AgentProvider.Event.onOpen)
        [AgentProvider.Event.teardown, AgentProvider.Event.onClose]).pendingReconnect
      = some 1000
    ∧ (AgentProvider.run
        (AgentProvider.step AgentProvider.init AgentProvider.Event.onOpen)
        [AgentProvider.Event.teardown, AgentProvider.Event.onClose,
         AgentProvider.Event.timerFire]).reconnectAttempts = 1 := by
  exact ⟨rfl, rfl⟩

/-- C10: both user-visible error signals of the browser copy are
ordinary agent-typed log entries: sendPrompt called while the socket is
not OPEN appends the not-connected notice (mutating the log), and an
unexpected close arriving with the five reconnect attempts exhausted
appends the connection-lost notice to the same log. -/
theorem error_notices_are_agent_log_entries
    (s : AgentProvider.State) (p : String)
    (hnc : s.isConnected = false)
    (hx : AgentProvider.maxReconnectAttempts ≤ s.reconnectAttempts) :
    AgentProvider.sendPrompt s p
      = AgentProvider.addMessage s
          { type := AgentProvider.MsgType.agent,
            content := AgentProvider.notConnectedText }
    ∧ AgentProvider.step s AgentProvider.Event.onClose
      = AgentProvider.addMessage { s with isConnected := false }
          { type := AgentProvider.MsgType.agent,
            content := AgentProvider.connectionLostText } := by
  constructor
  · simp [AgentProvider.sendPrompt, hnc]
  · simp only [AgentProvider.step]
    rw [if_neg]
    omega

/-- C10 witness: the statement at a disconnected state whose attempts
counter is exhausted, with the prompt "hi". -/
theorem error_notices_are_agent_log_entries_witness :
    AgentProvider.sendPrompt { AgentProvider.init with reconnectAttempts := 5 } "hi"
      = AgentProvider.addMessage { AgentProvider.init with reconnectAttempts := 5 }
          { type := AgentProvider.MsgType.agent,
            content := AgentProvider.notConnectedText }
    ∧ AgentProvider.step { AgentProvider.init with reconnectAttempts := 5 }
        AgentProvider.Event.onClose
      = AgentProvider.addMessage
          { { AgentProvider.init with reconnectAttempts := 5 } with
            isConnected := false }
          { type := AgentProvider.MsgType.agent,
            content := AgentProvider.connectionLostText } :=
  error_notices_are_agent_log_entries
    { AgentProvider.init with reconnectAttempts := 5 } "hi" rfl (by decide)
